import Mathlib

/-!
Verification of the rbac-demo access-control core.

Shallow embedding of:
  - `backend/app/security.py`  (classification lattice, record/cell checks, redaction filter)
  - `backend/app/routes/records.py` (create/get/update/delete handlers, audit issue order)
  - `search-app/main.py` (query-filter builders and post-retrieval field masking)

State and I/O are made explicit: each route handler is a pure function from its
inputs (the authenticated user, the looked-up record, the request body) to its
response together with the list of audit events it issued, in issue order.
-/

namespace RbacDemo

/-- Embeds `CurrentUser` dataclass from `backend/app/auth.py`: the authenticated
principal's security attributes extracted from the JWT. -/
structure CurrentUser where
  keycloak_id : String := ""
  username : String := ""
  organization : String := "Unknown"
  clearance_level : String := "UNCLASSIFIED"
  compartments : List String := []
  roles : List String := []
deriving Repr, DecidableEq

/-- Embeds `REDACTED` sentinel from `backend/app/security.py`. -/
def REDACTED : String := "[REDACTED]"

/-- Embeds `CLASSIFICATION_DENIED` reason code from `backend/app/security.py`. -/
def CLASSIFICATION_DENIED : String := "INSUFFICIENT_CLEARANCE"

/-- Embeds `COMPARTMENT_DENIED` reason code from `backend/app/security.py`. -/
def COMPARTMENT_DENIED : String := "NEED_TO_KNOW_REQUIRED"

/-- Embeds `clearance_rank` from `backend/app/security.py`: the Python dict lookup
`mapping.get(level, -1)` written as an equality chain. -/
def clearance_rank (level : String) : Int :=
  if level = "UNCLASSIFIED" then 0
  else if level = "CONFIDENTIAL" then 1
  else if level = "SECRET" then 2
  else if level = "TOP_SECRET" then 3
  else -1

/-- Embeds `can_access_classification` from `backend/app/security.py`. -/
def can_access_classification (user_clearance required : String) : Bool :=
  clearance_rank user_clearance ≥ clearance_rank required

/-- Embeds `has_compartment_access` from `backend/app/security.py`:
`if not required: return True` then `all(comp in user_compartments ...)`. -/
def has_compartment_access (user_compartments required : List String) : Bool :=
  if required = [] then true
  else required.all (fun comp => user_compartments.contains comp)

/-- Embeds `check_record_access` from `backend/app/security.py`. The denial reason is
the interpolated f-string, not the `CLASSIFICATION_DENIED` constant. -/
def check_record_access (user : CurrentUser) (record_classification : String) :
    Bool × String :=
  if can_access_classification user.clearance_level record_classification then
    (true, "ACCESS_GRANTED")
  else
    (false, "User clearance " ++ user.clearance_level ++ " insufficient for "
      ++ record_classification ++ " record")

/-- Embeds `check_cell_access` from `backend/app/security.py`: classification first,
then compartments; the compartment denial reason carries the missing names. -/
def check_cell_access (user : CurrentUser) (cell_classification : String)
    (cell_compartments : List String) : Bool × String :=
  if ¬ can_access_classification user.clearance_level cell_classification then
    (false, CLASSIFICATION_DENIED)
  else if ¬ has_compartment_access user.compartments cell_compartments then
    (false, COMPARTMENT_DENIED ++ ": missing ["
      ++ String.intercalate ", "
          (cell_compartments.filter (fun c => ¬ user.compartments.contains c))
      ++ "]")
  else
    (true, "ACCESS_GRANTED")

/-- One input cell dict as consumed by `filter_record_cells`
(keys with their `.get` defaults). -/
structure CellData where
  id : String := ""
  field_name : String := ""
  field_value : Option String := none
  cell_classification : String := "UNCLASSIFIED"
  compartments : List String := []
deriving Repr, DecidableEq

/-- One element of the visible view returned by `filter_record_cells`.
An allowed cell dict has no `denial_reason` key, modelled as `none`. -/
structure VisibleCell where
  id : String
  field_name : String
  field_value : Option String
  cell_classification : String
  compartments : List String
  accessible : Bool
  denial_reason : Option String
deriving Repr, DecidableEq

/-- One `access_log` entry produced by `filter_record_cells`. -/
structure CellLogEntry where
  field_name : String
  classification_required : String
  compartments_required : List String
  was_allowed : Bool
  denial_reason : Option String
deriving Repr, DecidableEq

/-- Embeds `filter_record_cells` from `backend/app/security.py`: the per-cell loop,
accumulating the visible view and the access log in input order. -/
def filter_record_cells (user : CurrentUser) :
    List CellData → List VisibleCell × List CellLogEntry
  | [] => ([], [])
  | cell :: rest =>
    let checked := check_cell_access user cell.cell_classification cell.compartments
    let allowed := checked.1
    let reason := checked.2
    let log_entry : CellLogEntry :=
      { field_name := cell.field_name
        classification_required := cell.cell_classification
        compartments_required := cell.compartments
        was_allowed := allowed
        denial_reason := if allowed then none else some reason }
    let view : VisibleCell :=
      if allowed then
        { id := cell.id, field_name := cell.field_name
          field_value := cell.field_value
          cell_classification := cell.cell_classification
          compartments := cell.compartments
          accessible := true, denial_reason := none }
      else
        { id := cell.id, field_name := cell.field_name
          field_value := some REDACTED
          cell_classification := cell.cell_classification
          compartments := [REDACTED]
          accessible := false, denial_reason := some reason }
    let restResult := filter_record_cells user rest
    (view :: restResult.1, log_entry :: restResult.2)

/-- One cell row (`RecordCell`) as stored with its record. -/
structure StoredCell where
  field_name : String
  field_value : String
  cell_classification : String
  compartments : List String
deriving Repr, DecidableEq

/-- One `Record` row: classification, cells, soft-delete flag. -/
structure Record where
  id : String
  title : String
  description : String
  record_classification : String
  cells : List StoredCell
  is_deleted : Bool
deriving Repr, DecidableEq

/-- One audit-trail write issued through `backend/app/audit.py`, restricted to
the fields the claims are about. `log_crud_event` always writes
`was_allowed = true` and puts any denial reason into `details`. -/
structure AuditEvent where
  action : String
  resource_type : String
  resource_id : Option String := none
  field_name : Option String := none
  was_allowed : Bool := true
  denial_reason : Option String := none
  details : Option String := none
deriving Repr, DecidableEq

/-- FastAPI `HTTPException` outcomes raised by the records routes. -/
inductive HttpError where
  | notFound (detail : String)
  | forbidden (detail : String)
deriving Repr, DecidableEq

/-- Embeds `log_record_access` from `backend/app/audit.py` as the event it writes. -/
def log_record_access_event (record_id : String) (was_allowed : Bool)
    (denial_reason : Option String) : AuditEvent :=
  { action := if was_allowed then "READ_RECORD" else "ACCESS_DENIED"
    resource_type := "record"
    resource_id := some record_id
    was_allowed := was_allowed
    denial_reason := denial_reason }

/-- Embeds `log_cell_access_batch` from `backend/app/audit.py`: one event per
access-log entry, in order. -/
def log_cell_access_batch_events (record_id : String)
    (cell_access_log : List CellLogEntry) : List AuditEvent :=
  cell_access_log.map (fun entry =>
    { action := if entry.was_allowed then "READ_CELL" else "CELL_ACCESS_DENIED"
      resource_type := "cell"
      resource_id := some record_id
      field_name := some entry.field_name
      was_allowed := entry.was_allowed
      denial_reason := entry.denial_reason })

/-- Embeds `GET /api/records/id` (`get_record` in `backend/app/routes/records.py`),
after authentication and with the database lookup passed in as `record?`.
Returns the response and the audit events issued before it, in issue order. -/
def get_record (user : CurrentUser) (record? : Option Record) :
    Except HttpError (List VisibleCell) × List AuditEvent :=
  match record? with
  | none => (.error (.notFound "Record not found"), [])
  | some record =>
    let checked := check_record_access user record.record_classification
    let allowed := checked.1
    let reason := checked.2
    let recEvent := log_record_access_event record.id allowed
      (if ¬ allowed then some reason else none)
    if ¬ allowed then
      (.error (.forbidden ("Access denied: " ++ reason)), [recEvent])
    else
      let cells_data : List CellData := record.cells.map (fun c =>
        { id := "", field_name := c.field_name, field_value := some c.field_value
          cell_classification := c.cell_classification
          compartments := c.compartments })
      let filtered := filter_record_cells user cells_data
      (.ok filtered.1,
       recEvent :: log_cell_access_batch_events record.id filtered.2)

/-- Request body `CellCreate` from `backend/app/routes/records.py`. -/
structure CellCreate where
  field_name : String
  field_value : String
  cell_classification : String := "UNCLASSIFIED"
  compartments : List String := []
deriving Repr, DecidableEq

/-- Request body `RecordCreate` from `backend/app/routes/records.py`. -/
structure RecordCreate where
  title : String
  description : String := ""
  record_classification : String := "UNCLASSIFIED"
  cells : List CellCreate := []
deriving Repr, DecidableEq

/-- Embeds `POST /api/records` (`create_record`), after the role dependency, with the
generated uuid passed in as `new_id`. -/
def create_record (user : CurrentUser) (data : RecordCreate) (new_id : String) :
    Except HttpError Record × List AuditEvent :=
  if clearance_rank data.record_classification > clearance_rank user.clearance_level then
    (.error (.forbidden "Cannot create records above your clearance level"), [])
  else
    let record : Record :=
      { id := new_id, title := data.title, description := data.description
        record_classification := data.record_classification
        cells := data.cells.map (fun c =>
          { field_name := c.field_name, field_value := c.field_value
            cell_classification := c.cell_classification
            compartments := c.compartments })
        is_deleted := false }
    (.ok record,
     [{ action := "CREATE", resource_type := "record", resource_id := some new_id }])

/-- Request body `CellUpdate` from `backend/app/routes/records.py`. -/
structure CellUpdate where
  field_name : String
  field_value : Option String := none
  cell_classification : Option String := none
  compartments : Option (List String) := none
deriving Repr, DecidableEq

/-- Request body `RecordUpdate` from `backend/app/routes/records.py`. -/
structure RecordUpdate where
  title : Option String := none
  description : Option String := none
  record_classification : Option String := none
  cells : Option (List CellUpdate) := none
deriving Repr, DecidableEq

/-- The per-cell body of the update loop in `update_record`
(lines 374-402 of `backend/app/routes/records.py`): gate on
`check_cell_access` against the EXISTING cell's classification and
compartments; on denial log `CELL_UPDATE_DENIED` and leave the cell
unchanged; on allow apply the proposed new values. -/
def apply_cell_update (user : CurrentUser) (existing : StoredCell)
    (cell_update : CellUpdate) : StoredCell × List AuditEvent :=
  let checked := check_cell_access user existing.cell_classification existing.compartments
  if ¬ checked.1 then
    (existing,
     [{ action := "CELL_UPDATE_DENIED", resource_type := "cell"
        field_name := some cell_update.field_name
        details := some checked.2 }])
  else
    ({ existing with
        field_value := cell_update.field_value.getD existing.field_value
        cell_classification :=
          cell_update.cell_classification.getD existing.cell_classification
        compartments := cell_update.compartments.getD existing.compartments },
     [])

/-- Replace the first cell named `fname` (the object `next(...)` found and the
loop mutated in place). -/
def set_cell : List StoredCell → String → StoredCell → List StoredCell
  | [], _, _ => []
  | c :: cs, fname, c' =>
    if c.field_name = fname then c' :: cs else c :: set_cell cs fname c'

/-- The `for cell_update in data.cells` loop of `update_record`: later updates
see the cell list as mutated by earlier ones; updates naming no existing cell
are skipped silently. -/
def update_cells (user : CurrentUser) (cells : List StoredCell) :
    List CellUpdate → List StoredCell × List AuditEvent
  | [] => (cells, [])
  | cell_update :: rest =>
    match cells.find? (fun c => c.field_name = cell_update.field_name) with
    | none => update_cells user cells rest
    | some existing =>
      let stepped := apply_cell_update user existing cell_update
      let cells' := set_cell cells existing.field_name stepped.1
      let restResult := update_cells user cells' rest
      (restResult.1, stepped.2 ++ restResult.2)

/-- Embeds `PUT /api/records/id` (`update_record`), after the role dependency, with
the database lookup passed in as `record?`. Returns the response, the stored
record after the request, and the audit events in issue order. The requested
`record_classification` change is applied with no comparison against the
updater's clearance. -/
def update_record (user : CurrentUser) (record? : Option Record)
    (data : RecordUpdate) :
    Except HttpError String × Option Record × List AuditEvent :=
  match record? with
  | none => (.error (.notFound "Record not found"), none, [])
  | some record =>
    let checked := check_record_access user record.record_classification
    if ¬ checked.1 then
      (.error (.forbidden ("Access denied: " ++ checked.2)), some record,
       [{ action := "UPDATE_DENIED", resource_type := "record"
          resource_id := some record.id, details := some checked.2 }])
    else
      let record1 : Record :=
        { record with
            title := data.title.getD record.title
            description := data.description.getD record.description
            record_classification :=
              data.record_classification.getD record.record_classification }
      let updated :=
        match data.cells with
        | none => (record1.cells, [])
        | some cell_updates => update_cells user record1.cells cell_updates
      let record2 : Record := { record1 with cells := updated.1 }
      (.ok "Record updated", some record2,
       updated.2 ++
        [{ action := "UPDATE", resource_type := "record"
           resource_id := some record.id }])

/-- Embeds `DELETE /api/records/id` (`delete_record`), after the manager/admin role
dependency, with the database lookup passed in as `record?`. On a record-level
access failure the 403 is raised with NO audit write; the only audit write is
the `DELETE` crud event on the success path. -/
def delete_record (user : CurrentUser) (record? : Option Record) :
    Except HttpError (Record × String) × List AuditEvent :=
  match record? with
  | none => (.error (.notFound "Record not found"), [])
  | some record =>
    let checked := check_record_access user record.record_classification
    if ¬ checked.1 then
      (.error (.forbidden ("Access denied: " ++ checked.2)), [])
    else
      let record' : Record := { record with is_deleted := true }
      (.ok (record', "Record deleted"),
       [{ action := "DELETE", resource_type := "record"
          resource_id := some record.id }])

/-! Embedding of `search-app/main.py`: classification ceiling, OpenSearch
query builders, and post-retrieval field masking. -/

/-- Embeds `CLASSIFICATION_HIERARCHY` dict from `search-app/main.py`, in insertion
order. -/
def CLASSIFICATION_HIERARCHY : List (String × Int) :=
  [("UNCLASSIFIED", 0), ("CONFIDENTIAL", 1), ("SECRET", 2), ("TOP_SECRET", 3)]

/-- Embeds `CLASSIFICATION_HIERARCHY.get(clearance, 0)` from `allowed_classifications`:
the dict lookup written as an equality chain, defaulting to 0. -/
def hierarchy_get (clearance : String) : Int :=
  if clearance = "UNCLASSIFIED" then 0
  else if clearance = "CONFIDENTIAL" then 1
  else if clearance = "SECRET" then 2
  else if clearance = "TOP_SECRET" then 3
  else 0

/-- Embeds `allowed_classifications` from `search-app/main.py`: every classification
at or below the clearance ceiling, in hierarchy order. -/
def allowed_classifications (clearance : String) : List String :=
  let ceiling := hierarchy_get clearance
  (CLASSIFICATION_HIERARCHY.filter (fun p => p.2 ≤ ceiling)).map Prod.fst

/-- The search-app user profile dict (keys with their `.get` defaults). -/
structure SearchUser where
  username : String := ""
  organization : String
  clearance : String
  cell_memberships : List String := []
  compartments : List String := []
deriving Repr, DecidableEq

/-- A document as indexed by the search-app (the index mapping of
`search-app/main.py`), restricted to the security-relevant fields;
`_source` defaults applied by `apply_field_masking` are the field defaults. -/
structure ESDoc where
  classification : String
  organization : String
  shared_with : List String := []
  cell_access : List String := []
  ntk_required : Bool := false
  ntk_users : List String := []
  ntk_compartments : List String := []
  source_name : String := ""
  handler_id : String := ""
  raw_intel : String := ""
deriving Repr, DecidableEq

/-- A leaf filter clause of the OpenSearch query DSL as used by the builders. -/
inductive Atom where
  | term (field : String) (value : String)
  | termBool (field : String) (value : Bool)
  | terms (field : String) (values : List String)
deriving Repr, DecidableEq

/-- An element of a `should` group: either a leaf or a nested
`bool.must_not` wrapper. -/
inductive SubClause where
  | atom (a : Atom)
  | mustNot (atoms : List Atom)
deriving Repr, DecidableEq

/-- One element of the top-level `filter` list: a leaf or a `should` group
with `minimum_should_match = 1`. -/
inductive FilterClause where
  | atom (a : Atom)
  | should (subclauses : List SubClause)
deriving Repr, DecidableEq

/-- One element of the top-level `must` list: the text query. -/
inductive MustClause where
  | matchAll
  | multiMatch (query : String) (fields : List String)
deriving Repr, DecidableEq

/-- The `bool` query produced by the builders. -/
structure BoolQuery where
  must : List MustClause
  filter : List FilterClause
deriving Repr, DecidableEq

/-- OpenSearch keyword `term`/`terms` semantics over the fields of the index
mapping: a `term` on an array field matches by membership, on a scalar field
by equality; `terms` matches when the document value is among the listed
values. Fields outside the mapping match nothing. -/
def evalAtom (doc : ESDoc) : Atom → Bool
  | .term "organization" v => doc.organization = v
  | .term "shared_with" v => doc.shared_with.contains v
  | .term "cell_access" v => doc.cell_access.contains v
  | .term "ntk_users" v => doc.ntk_users.contains v
  | .term "ntk_compartments" v => doc.ntk_compartments.contains v
  | .termBool "ntk_required" b => doc.ntk_required = b
  | .terms "classification" vs => vs.contains doc.classification
  | _ => false

/-- Evaluation of a `should` element: `must_not` negates the conjunction inside. -/
def evalSub (doc : ESDoc) : SubClause → Bool
  | .atom a => evalAtom doc a
  | .mustNot atoms => ¬ atoms.any (evalAtom doc)

/-- Evaluation of a `filter` element: a `should` group with
`minimum_should_match = 1` is a disjunction. -/
def evalFilterClause (doc : ESDoc) : FilterClause → Bool
  | .atom a => evalAtom doc a
  | .should subclauses => subclauses.any (evalSub doc)

/-- Evaluation of a `must` element, parameterised by a text-relevance oracle `tm`
for `multi_match` (full-text scoring is the search engine's concern). -/
def evalMustClause (tm : String → List String → ESDoc → Bool) (doc : ESDoc) :
    MustClause → Bool
  | .matchAll => true
  | .multiMatch q fields => tm q fields doc

/-- A document matches the `bool` query iff every `must` and every `filter`
element matches. -/
def evalQuery (tm : String → List String → ESDoc → Bool) (q : BoolQuery)
    (doc : ESDoc) : Bool :=
  q.must.all (evalMustClause tm doc) && q.filter.all (evalFilterClause doc)

/-- Embeds `_text_query` from `search-app/main.py`. -/
def text_query (search_text : String) : MustClause :=
  if search_text.trim ≠ "" then
    .multiMatch search_text ["title^3", "content", "author", "location", "department"]
  else
    .matchAll

/-- Embeds `_org_filter` from `search-app/main.py`. -/
def org_filter (org : String) : FilterClause :=
  .should [.atom (.term "organization" org),
           .atom (.term "shared_with" "all"),
           .atom (.term "shared_with" org)]

/-- Embeds `build_rbac_query` from `search-app/main.py`. -/
def build_rbac_query (search_text : String) (user : SearchUser) : BoolQuery :=
  { must := [text_query search_text]
    filter := [.atom (.terms "classification" (allowed_classifications user.clearance)),
               org_filter user.organization] }

/-- The `cell_should` list built identically inside both `build_cell_query`
and `build_ntk_query`: the "all" clause first, then one clause per
membership. -/
def cell_should (user : SearchUser) : List SubClause :=
  .atom (.term "cell_access" "all")
    :: user.cell_memberships.map (fun cell => .atom (.term "cell_access" cell))

/-- Embeds `build_cell_query` from `search-app/main.py`. -/
def build_cell_query (search_text : String) (user : SearchUser) : BoolQuery :=
  { must := [text_query search_text]
    filter := [.atom (.terms "classification" (allowed_classifications user.clearance)),
               org_filter user.organization,
               .should (cell_should user)] }

/-- The `ntk_should` list built inside `build_ntk_query`. -/
def ntk_should (user : SearchUser) : List SubClause :=
  .mustNot [.termBool "ntk_required" true]
    :: .atom (.term "ntk_users" user.username)
    :: user.compartments.map (fun comp => .atom (.term "ntk_compartments" comp))

/-- Embeds `build_ntk_query` from `search-app/main.py`. -/
def build_ntk_query (search_text : String) (user : SearchUser) : BoolQuery :=
  { must := [text_query search_text]
    filter := [.atom (.terms "classification" (allowed_classifications user.clearance)),
               org_filter user.organization,
               .should (cell_should user),
               .should (ntk_should user)] }

/-- Embeds `SENSITIVE_FIELDS` from `search-app/main.py`. -/
def SENSITIVE_FIELDS : List String := ["source_name", "handler_id", "raw_intel"]

/-- The `has_cell_access` check of `apply_field_masking`: the user's cells
intersect the document's cells with the "all" wildcard removed. -/
def has_cell_access (user : SearchUser) (doc : ESDoc) : Bool :=
  (doc.cell_access.filter (fun c => c ≠ "all")).any
    (fun c => user.cell_memberships.contains c)

/-- The `has_ntk_access` check of `apply_field_masking`. -/
def has_ntk_access (user : SearchUser) (doc : ESDoc) : Bool :=
  !doc.ntk_required
    || doc.ntk_users.contains user.username
    || user.compartments.any (fun c => doc.ntk_compartments.contains c)

/-- The `_field_access` markers written by `apply_field_masking`. -/
inductive FieldAccess where
  | empty
  | visible
  | cell_denied
  | ntk_denied
  | redacted
deriving Repr, DecidableEq

/-- The per-field body of the masking loop in `apply_field_masking`: empty
values are skipped; in "ntk" mode both checks gate visibility with distinct
sentinels; otherwise only the cell check does. -/
def mask_field (mode : String) (hasCell hasNtk : Bool) (val : String) :
    String × FieldAccess :=
  if val = "" then (val, .empty)
  else if mode = "ntk" then
    if hasCell && hasNtk then (val, .visible)
    else if !hasCell then ("██ CELL RESTRICTED ██", .cell_denied)
    else ("██ NTK RESTRICTED ██", .ntk_denied)
  else
    if hasCell then (val, .visible)
    else ("██ REDACTED ██", .redacted)

/-- Embeds `apply_field_masking` from `search-app/main.py` on one retrieved document:
the three sensitive fields are masked with the shared cell/NTK decisions, and
the per-field access markers are returned alongside. -/
def apply_field_masking_doc (user : SearchUser) (mode : String) (doc : ESDoc) :
    ESDoc × List (String × FieldAccess) :=
  let hasCell := has_cell_access user doc
  let hasNtk := has_ntk_access user doc
  let sn := mask_field mode hasCell hasNtk doc.source_name
  let hi := mask_field mode hasCell hasNtk doc.handler_id
  let ri := mask_field mode hasCell hasNtk doc.raw_intel
  ({ doc with source_name := sn.1, handler_id := hi.1, raw_intel := ri.1 },
   [("source_name", sn.2), ("handler_id", hi.2), ("raw_intel", ri.2)])

/-! Helper lemmas shared by several claims. -/

/-- The check `has_compartment_access` fails exactly when the required set is non-empty
and some required compartment is missing from the user's set. -/
lemma has_compartment_access_eq_false_iff (uc req : List String) :
    has_compartment_access uc req = false ↔
      req ≠ [] ∧ ¬ (∀ c ∈ req, c ∈ uc) := by
  unfold has_compartment_access
  split_ifs with h
  · simp [h]
  · simp [h, List.all_eq_true, List.elem_iff]

/-- Every clearance string, known or not, admits `UNCLASSIFIED` in the
query-time classification ceiling. -/
lemma unclassified_mem_allowed (s : String) :
    (allowed_classifications s).contains "UNCLASSIFIED" = true := by
  simp only [allowed_classifications, hierarchy_get]
  split_ifs <;> decide

/-! C1. -/

/-- The deleting manager of the C1 failing input: role manager, clearance
below the record's classification. -/
def c1_user : CurrentUser :=
  { keycloak_id := "kc-1", username := "mallory_manager"
    clearance_level := "CONFIDENTIAL", roles := ["manager"] }

/-- The record of the C1 failing input. -/
def c1_record : Record :=
  { id := "rec-1", title := "Ops plan", description := ""
    record_classification := "SECRET", cells := [], is_deleted := false }

/-- C1: the claim states every access-denying operation, in particular record
delete, issues an audit write for the denial before returning the 403. At the
failing input below, `delete_record` returns its 403 record-level denial
having issued no audit write at all: the issued-events list is empty. -/
theorem delete_record_denial_unaudited :
    (delete_record c1_user (some c1_record)).1 =
      .error (.forbidden
        "Access denied: User clearance CONFIDENTIAL insufficient for SECRET record")
    ∧ (delete_record c1_user (some c1_record)).2 = [] := by
  exact ⟨rfl, rfl⟩

/-! C2. -/

/-- C2 counterexample: the claim states every access comparison involving an
unknown level string resolves to denial; but an unknown REQUIRED level ranks
-1 and every clearance rank is ≥ -1, so the check allows. -/
theorem unknown_required_level_allows :
    clearance_rank "FOUO" = -1
    ∧ can_access_classification "UNCLASSIFIED" "FOUO" = true := by
  exact ⟨rfl, rfl⟩

/-- C2 amended: unknown level strings rank -1; an unknown clearance is denied
against every known required level, but an unknown required level is allowed
to every principal, and the query-time ceiling for an unknown clearance falls
back to rank 0, yielding exactly `["UNCLASSIFIED"]`. -/
theorem unknown_levels_rank_negative :
    (∀ level, level ≠ "UNCLASSIFIED" → level ≠ "CONFIDENTIAL" →
      level ≠ "SECRET" → level ≠ "TOP_SECRET" → clearance_rank level = -1)
    ∧ (∀ clearance required, clearance_rank clearance = -1 →
        0 ≤ clearance_rank required →
        can_access_classification clearance required = false)
    ∧ (∀ clearance required, clearance_rank required = -1 →
        can_access_classification clearance required = true)
    ∧ (∀ clearance, clearance ≠ "UNCLASSIFIED" → clearance ≠ "CONFIDENTIAL" →
        clearance ≠ "SECRET" → clearance ≠ "TOP_SECRET" →
        allowed_classifications clearance = ["UNCLASSIFIED"]) := by
  refine ⟨?_, ?_, ?_, ?_⟩
  · intro level h1 h2 h3 h4
    simp [clearance_rank, h1, h2, h3, h4]
  · intro c r h1 h2
    simp only [can_access_classification, h1]
    simp only [ge_iff_le, decide_eq_false_iff_not, not_le]
    omega
  · intro c r h1
    simp only [can_access_classification, h1]
    have hc : -1 ≤ clearance_rank c := by
      unfold clearance_rank; split_ifs <;> omega
    simp only [ge_iff_le, decide_eq_true_eq]
    omega
  · intro c h1 h2 h3 h4
    simp [allowed_classifications, hierarchy_get, h1, h2, h3, h4,
      CLASSIFICATION_HIERARCHY]

/-- C2 amended witness at concrete inputs. -/
theorem unknown_levels_rank_negative_witness :
    can_access_classification "LEGACY" "SECRET" = false
    ∧ allowed_classifications "LEGACY" = ["UNCLASSIFIED"] :=
  ⟨unknown_levels_rank_negative.2.1 "LEGACY" "SECRET" rfl (by decide),
   unknown_levels_rank_negative.2.2.2 "LEGACY" (by decide) (by decide)
     (by decide) (by decide)⟩

/-! C3. -/

/-- Principal of the C3 counterexample: full clearance, no compartments. -/
def c3_user : CurrentUser :=
  { keycloak_id := "kc-3", username := "dana", clearance_level := "TOP_SECRET" }

/-- First denied input cell of the C3 counterexample. -/
def c3_cell_alpha : CellData :=
  { id := "cell-1", field_name := "asset_status", field_value := some "active"
    cell_classification := "SECRET", compartments := ["PROJECT_ALPHA"] }

/-- Second input cell, identical except for its required compartment set. -/
def c3_cell_omega : CellData :=
  { c3_cell_alpha with compartments := ["PROJECT_OMEGA"] }

/-- C3 counterexample: both cells are denied, yet the returned visible views
differ, because the view's attached `denial_reason` carries the missing
compartment names. -/
theorem denied_view_reveals_compartments :
    ((filter_record_cells c3_user [c3_cell_alpha]).1.map VisibleCell.accessible
        = [false])
    ∧ ((filter_record_cells c3_user [c3_cell_omega]).1.map VisibleCell.accessible
        = [false])
    ∧ ((filter_record_cells c3_user [c3_cell_alpha]).1.map VisibleCell.denial_reason
        = [some "NEED_TO_KNOW_REQUIRED: missing [PROJECT_ALPHA]"])
    ∧ (filter_record_cells c3_user [c3_cell_alpha]).1
        ≠ (filter_record_cells c3_user [c3_cell_omega]).1 := by
  refine ⟨by decide, by decide, by decide, by decide⟩

/-- C3 amended: a denied cell's view masks the field value and the compartment
list with the fixed sentinel; only the attached `denial_reason` string may
name the missing compartments. -/
theorem redacted_view_masks_value_and_compartments (u : CurrentUser)
    (cells : List CellData) (v : VisibleCell)
    (hv : v ∈ (filter_record_cells u cells).1) (hd : v.accessible = false) :
    v.field_value = some REDACTED ∧ v.compartments = [REDACTED] := by
  induction cells with
  | nil => simp [filter_record_cells] at hv
  | cons c cs ih =>
    rw [filter_record_cells] at hv
    by_cases hall : (check_cell_access u c.cell_classification c.compartments).1
    · simp only [hall, if_true] at hv
      rcases List.mem_cons.mp hv with h | h
      · rw [h] at hd; simp at hd
      · exact ih h
    · simp only [hall, if_false, Bool.false_eq_true] at hv
      rcases List.mem_cons.mp hv with h | h
      · rw [h]; exact ⟨rfl, rfl⟩
      · exact ih h

/-- Principal of the C3 amended witness: no compartments. -/
def w3_user : CurrentUser := { keycloak_id := "kc-w3", username := "w3" }

/-- Denied cell of the C3 amended witness. -/
def w3_cell : CellData :=
  { field_name := "src", field_value := some "v", compartments := ["X"] }

/-- The view `filter_record_cells` produces for that denied cell. -/
def w3_view : VisibleCell :=
  { id := "", field_name := "src", field_value := some REDACTED
    cell_classification := "UNCLASSIFIED", compartments := [REDACTED]
    accessible := false
    denial_reason := some "NEED_TO_KNOW_REQUIRED: missing [X]" }

/-- C3 amended witness at concrete inputs. -/
theorem redacted_view_masks_witness :
    w3_view ∈ (filter_record_cells w3_user [w3_cell]).1
    ∧ w3_view.field_value = some REDACTED
    ∧ w3_view.compartments = [REDACTED] :=
  ⟨by decide,
   (redacted_view_masks_value_and_compartments w3_user [w3_cell] w3_view
      (by decide) (by decide)).1,
   (redacted_view_masks_value_and_compartments w3_user [w3_cell] w3_view
      (by decide) (by decide)).2⟩

/-! C4. -/

/-- Principal of the C4 counterexample. -/
def c4_user : CurrentUser :=
  { keycloak_id := "kc-4", username := "quinn", clearance_level := "UNCLASSIFIED" }

/-- C4 counterexample: on a record-level denial the returned reason is the
interpolated message, not the bit-exact code `INSUFFICIENT_CLEARANCE`. -/
theorem record_denial_reason_not_the_code :
    (check_record_access c4_user "SECRET").1 = false
    ∧ (check_record_access c4_user "SECRET").2 ≠ CLASSIFICATION_DENIED
    ∧ (check_record_access c4_user "SECRET").2
        = "User clearance UNCLASSIFIED insufficient for SECRET record" := by
  refine ⟨rfl, by decide, rfl⟩

/-- C4 amended: `check_record_access` allows iff the clearance rank meets the
record classification rank, and on denial the reason is the formatted message
naming the two levels rather than the `INSUFFICIENT_CLEARANCE` code. -/
theorem check_record_access_spec (u : CurrentUser) (rc : String) :
    ((check_record_access u rc).1 = true ↔
       clearance_rank u.clearance_level ≥ clearance_rank rc)
    ∧ ((check_record_access u rc).1 = false →
        (check_record_access u rc).2 =
          "User clearance " ++ u.clearance_level ++ " insufficient for "
            ++ rc ++ " record") := by
  unfold check_record_access can_access_classification
  by_cases h : clearance_rank u.clearance_level ≥ clearance_rank rc
  · simp [h]
  · simp [h]

/-- Principal of the C4 amended witness. -/
def w4_user : CurrentUser :=
  { keycloak_id := "kc-w4", username := "w4", clearance_level := "CONFIDENTIAL" }

/-- C4 amended witness at concrete inputs. -/
theorem check_record_access_spec_witness :
    (check_record_access w4_user "TOP_SECRET").2 =
      "User clearance CONFIDENTIAL insufficient for TOP_SECRET record" :=
  (check_record_access_spec w4_user "TOP_SECRET").2 (by decide)

/-! C5. -/

/-- C5: `check_cell_access` evaluates classification first — a classification
failure yields exactly `(false, INSUFFICIENT_CLEARANCE)` for every compartment
set, i.e. without evaluating compartments; when classification passes, it
denies iff the required set is non-empty and not contained in the principal's
set, an empty required set always passes, and the compartment denial reason is
`NEED_TO_KNOW_REQUIRED` plus the missing names. -/
theorem check_cell_access_spec (u : CurrentUser) (cls : String)
    (comps : List String) :
    (can_access_classification u.clearance_level cls = false →
       check_cell_access u cls comps = (false, CLASSIFICATION_DENIED))
    ∧ (can_access_classification u.clearance_level cls = true →
        (((check_cell_access u cls comps).1 = false) ↔
           (comps ≠ [] ∧ ¬ (∀ c ∈ comps, c ∈ u.compartments)))
        ∧ (comps = [] → check_cell_access u cls comps = (true, "ACCESS_GRANTED"))
        ∧ ((check_cell_access u cls comps).1 = false →
            (check_cell_access u cls comps).2 =
              COMPARTMENT_DENIED ++ ": missing ["
                ++ String.intercalate ", "
                    (comps.filter (fun c => ¬ u.compartments.contains c))
                ++ "]")) := by
  have hiff := has_compartment_access_eq_false_iff u.compartments comps
  constructor
  · intro h
    simp [check_cell_access, h]
  · intro h
    by_cases hcomp : has_compartment_access u.compartments comps = true
    · have hred : check_cell_access u cls comps = (true, "ACCESS_GRANTED") := by
        simp [check_cell_access, h, hcomp]
      have hno : ¬ (comps ≠ [] ∧ ¬ (∀ c ∈ comps, c ∈ u.compartments)) := by
        rw [← hiff, hcomp]
        simp
      refine ⟨?_, ?_, ?_⟩
      · rw [hred]
        exact iff_of_false (by simp) hno
      · intro _
        exact hred
      · intro hfalse
        rw [hred] at hfalse
        simp at hfalse
    · have hcomp' : has_compartment_access u.compartments comps = false := by
        simpa using hcomp
      have hred : check_cell_access u cls comps =
          (false, COMPARTMENT_DENIED ++ ": missing ["
            ++ String.intercalate ", "
                (comps.filter (fun c => ¬ u.compartments.contains c))
            ++ "]") := by
        simp [check_cell_access, h, hcomp']
      refine ⟨?_, ?_, ?_⟩
      · rw [hred]
        exact iff_of_true rfl (hiff.mp hcomp')
      · intro hnil
        rw [hnil] at hcomp'
        simp [has_compartment_access] at hcomp'
      · intro _
        rw [hred]

/-- Principal of the C5 witness: spec scenario A (clearance SECRET,
compartments PROJECT_ALPHA, cell requiring PROJECT_OMEGA). -/
def w5_user : CurrentUser :=
  { keycloak_id := "kc-w5", username := "w5", clearance_level := "SECRET"
    compartments := ["PROJECT_ALPHA"] }

/-- C5 witness at concrete inputs. -/
theorem check_cell_access_spec_witness :
    (check_cell_access w5_user "SECRET" ["PROJECT_OMEGA"]).2 =
      "NEED_TO_KNOW_REQUIRED: missing [PROJECT_OMEGA]"
    ∧ check_cell_access w5_user "SECRET" [] = (true, "ACCESS_GRANTED") :=
  ⟨((check_cell_access_spec w5_user "SECRET" ["PROJECT_OMEGA"]).2
      (by decide)).2.2 (by decide),
   ((check_cell_access_spec w5_user "SECRET" []).2 (by decide)).2.1 rfl⟩

/-! C6. -/

/-- C6: `filter_record_cells` produces exactly one audit entry per input cell,
in input order, whatever each decision was, and each entry's field name is the
input cell's field name at the same position. -/
theorem filter_record_cells_one_log_per_cell (u : CurrentUser)
    (cells : List CellData) :
    ((filter_record_cells u cells).2.length = cells.length)
    ∧ ((filter_record_cells u cells).2.map CellLogEntry.field_name
        = cells.map CellData.field_name) := by
  induction cells with
  | nil => exact ⟨rfl, rfl⟩
  | cons c cs ih =>
    refine ⟨?_, ?_⟩ <;> simp [filter_record_cells, ih.1, ih.2]

/-! C7. -/

/-- Evaluating the mapped compartment clauses of `ntk_should` is membership of
some user compartment in the document's `ntk_compartments`. -/
lemma any_comp_map (d : ESDoc) (l : List String) :
    (l.map (fun comp => SubClause.atom (Atom.term "ntk_compartments" comp))).any
        (evalSub d)
      = l.any (fun c => d.ntk_compartments.contains c) := by
  induction l with
  | nil => rfl
  | cons a t ih =>
    simp only [List.map_cons, List.any_cons, ih]
    rfl

/-- The NTK `should` group evaluates exactly to the post-retrieval
`has_ntk_access` check. -/
lemma ntk_group_eval (d : ESDoc) (u : SearchUser) :
    evalFilterClause d (.should (ntk_should u)) = has_ntk_access u d := by
  show (ntk_should u).any (evalSub d) = has_ntk_access u d
  simp only [ntk_should, List.any_cons, any_comp_map]
  cases hnr : d.ntk_required <;>
    simp [evalSub, evalAtom, has_ntk_access, hnr]

/-- The NTK document of spec scenario C: `ntk_required = true`,
`ntk_users = ["alice"]`, `ntk_compartments = []`. -/
def c7_doc : ESDoc :=
  { classification := "SECRET", organization := "agency-alpha"
    shared_with := ["all"], cell_access := ["all", "cell-hq"]
    ntk_required := true, ntk_users := ["alice"], ntk_compartments := []
    source_name := "Asset K" }

/-- Principal "bob" of scenario C: sufficient clearance, no compartments. -/
def c7_bob : SearchUser :=
  { username := "bob", organization := "agency-alpha", clearance := "TOP_SECRET"
    cell_memberships := ["cell-hq"], compartments := [] }

/-- Principal "alice" of scenario C, identical to bob but for the id. -/
def c7_alice : SearchUser := { c7_bob with username := "alice" }

/-- C7: the NTK `should` group of `build_ntk_query` evaluates exactly to the
post-retrieval `has_ntk_access` check, which holds iff `ntk_required` is false
or the principal's id is in `ntk_users` or the principal's compartments meet
`ntk_compartments`; the whole NTK query is the cell-mode query in conjunction
with that group; and on scenario C bob is denied while alice is allowed, both
at query time and in post-retrieval field masking. -/
theorem ntk_check_semantics (tm : String → List String → ESDoc → Bool)
    (st : String) (u : SearchUser) (d : ESDoc) :
    (evalFilterClause d (.should (ntk_should u)) = has_ntk_access u d)
    ∧ (has_ntk_access u d = true ↔
        (d.ntk_required = false ∨ u.username ∈ d.ntk_users
          ∨ ∃ c ∈ u.compartments, c ∈ d.ntk_compartments))
    ∧ (evalQuery tm (build_ntk_query st u) d
        = (evalQuery tm (build_cell_query st u) d
            && evalFilterClause d (.should (ntk_should u))))
    ∧ has_ntk_access c7_bob c7_doc = false
    ∧ has_ntk_access c7_alice c7_doc = true
    ∧ evalFilterClause c7_doc (.should (ntk_should c7_bob)) = false
    ∧ evalFilterClause c7_doc (.should (ntk_should c7_alice)) = true
    ∧ (apply_field_masking_doc c7_bob "ntk" c7_doc).1.source_name
        = "██ NTK RESTRICTED ██"
    ∧ (apply_field_masking_doc c7_alice "ntk" c7_doc).1.source_name
        = "Asset K" := by
  refine ⟨ntk_group_eval d u, ?_, ?_, by decide, by decide, by decide,
    by decide, by decide, by decide⟩
  · simp only [has_ntk_access, Bool.or_eq_true, Bool.not_eq_true',
      List.any_eq_true, List.elem_iff]
    cases d.ntk_required <;> simp [List.elem_iff]
  · simp only [evalQuery, build_ntk_query, build_cell_query, List.all_cons,
      List.all_nil, Bool.and_true, Bool.and_assoc]

/-- C7 witness: the NTK-check characterisation applied to alice on the
scenario-C document, the membership side discharged concretely. -/
theorem ntk_check_semantics_witness :
    has_ntk_access c7_alice c7_doc = true :=
  (ntk_check_semantics (fun _ _ _ => true) "" c7_alice c7_doc).2.1.mpr
    (Or.inr (Or.inl (by decide)))

/-! C8. -/

/-- An "all"-tagged `UNCLASSIFIED` document in the principal's own
organization: the satisfiability witness for every builder mode. -/
def sat_doc (u : SearchUser) : ESDoc :=
  { classification := "UNCLASSIFIED", organization := u.organization
    shared_with := ["all"], cell_access := ["all"] }

/-- C8: for every user profile — in particular one with empty
`cell_memberships` and `compartments` — the cell-access OR-groups of
`build_cell_query` and `build_ntk_query` contain the clause matching
documents tagged "all", and all three mode builders produce a predicate
satisfied by an "all"-tagged document, so the predicate is satisfiable. -/
theorem query_builders_satisfiable (search_text : String) (u : SearchUser) :
    (SubClause.atom (.term "cell_access" "all") ∈ cell_should u)
    ∧ (SubClause.atom (.term "cell_access" "all") ∈
        match (build_ntk_query search_text u).filter with
        | _ :: _ :: FilterClause.should gr :: _ => gr
        | _ => [])
    ∧ evalQuery (fun _ _ _ => true) (build_rbac_query search_text u)
        (sat_doc u) = true
    ∧ evalQuery (fun _ _ _ => true) (build_cell_query search_text u)
        (sat_doc u) = true
    ∧ evalQuery (fun _ _ _ => true) (build_ntk_query search_text u)
        (sat_doc u) = true := by
  have hmem : "UNCLASSIFIED" ∈ allowed_classifications u.clearance := by
    simpa [List.elem_iff] using unclassified_mem_allowed u.clearance
  have hmust : ∀ (doc : ESDoc) (m : MustClause),
      evalMustClause (fun _ _ _ => true) doc m = true := by
    intro doc m
    cases m <;> rfl
  refine ⟨List.mem_cons_self _ _, ?_, ?_, ?_, ?_⟩
  · show SubClause.atom (.term "cell_access" "all") ∈ cell_should u
    exact List.mem_cons_self _ _
  all_goals
    simp [evalQuery, build_rbac_query, build_cell_query, build_ntk_query,
      hmust, evalFilterClause, evalSub, evalAtom, org_filter, cell_should,
      ntk_should, sat_doc, hmem]

/-! C9. -/

/-- C9: the cell-update step of `update_record` is gated by
`check_cell_access` on the EXISTING stored cell's classification and
compartments: when that check fails the cell is unchanged and a
`CELL_UPDATE_DENIED` event is the only audit write; any change to the stored
cell therefore implies the check on the pre-update values passed — the
proposed new values never decide authorization. -/
theorem cell_update_gated_on_existing (u : CurrentUser) (existing : StoredCell)
    (cell_update : CellUpdate) :
    ((check_cell_access u existing.cell_classification existing.compartments).1
        = false →
      (apply_cell_update u existing cell_update).1 = existing
      ∧ (apply_cell_update u existing cell_update).2 =
          [{ action := "CELL_UPDATE_DENIED", resource_type := "cell"
             field_name := some cell_update.field_name
             details := some (check_cell_access u existing.cell_classification
               existing.compartments).2 }])
    ∧ ((apply_cell_update u existing cell_update).1 ≠ existing →
        (check_cell_access u existing.cell_classification
          existing.compartments).1 = true) := by
  constructor
  · intro h
    constructor <;> simp [apply_cell_update, h]
  · intro hne
    by_contra hc
    apply hne
    have h : (check_cell_access u existing.cell_classification
        existing.compartments).1 = false := by
      simpa using hc
    simp [apply_cell_update, h]

/-- Principal of the C9 witness: lowest clearance. -/
def w9_user : CurrentUser := { keycloak_id := "kc-w9", username := "w9" }

/-- Existing stored cell of the C9 witness: unclassified, no compartments. -/
def w9_cell : StoredCell :=
  { field_name := "status", field_value := "ok"
    cell_classification := "UNCLASSIFIED", compartments := [] }

/-- Proposed update of the C9 witness: raises the cell to `TOP_SECRET`, which
the updater could never pass a check against. -/
def w9_update : CellUpdate :=
  { field_name := "status", cell_classification := some "TOP_SECRET" }

/-- C9 witness: the update is applied (the check ran against the existing
unclassified values, not the proposed `TOP_SECRET` ones). -/
theorem cell_update_gated_on_existing_witness :
    (apply_cell_update w9_user w9_cell w9_update).1.cell_classification
        = "TOP_SECRET"
    ∧ (check_cell_access w9_user w9_cell.cell_classification
        w9_cell.compartments).1 = true :=
  ⟨by decide,
   (cell_update_gated_on_existing w9_user w9_cell w9_update).2 (by decide)⟩

/-! C10. -/

/-- C10: only creation enforces the clearance ceiling — `create_record`
rejects with the 403 exactly when the requested record classification ranks
above the creator's clearance, while `update_record`, once record-level
access against the OLD classification passes, stores any requested new
record classification with no comparison to the updater's clearance. -/
theorem classification_ceiling_only_on_create (u : CurrentUser)
    (data : RecordCreate) (new_id : String) (rec : Record)
    (upd : RecordUpdate) (c : String) :
    ((create_record u data new_id).1 =
        .error (.forbidden "Cannot create records above your clearance level")
      ↔ clearance_rank data.record_classification
          > clearance_rank u.clearance_level)
    ∧ ((check_record_access u rec.record_classification).1 = true →
        upd.record_classification = some c →
        ∃ rec', (update_record u (some rec) upd).2.1 = some rec'
          ∧ rec'.record_classification = c) := by
  constructor
  · unfold create_record
    split_ifs with h
    · simpa using h
    · simpa using h
  · intro h hupd
    simp only [update_record, h, Bool.true_eq_false, not_false_eq_true,
      if_neg, ite_false, ite_true, Bool.not_true]
    refine ⟨_, rfl, ?_⟩
    simp [hupd]

/-- Updating principal of the C10 witness: clearance CONFIDENTIAL. -/
def w10_user : CurrentUser :=
  { keycloak_id := "kc-w10", username := "w10"
    clearance_level := "CONFIDENTIAL", roles := ["analyst"] }

/-- Record of the C10 witness, currently at the updater's own level. -/
def w10_record : Record :=
  { id := "rec-10", title := "t", description := ""
    record_classification := "CONFIDENTIAL", cells := [], is_deleted := false }

/-- Update request of the C10 witness: raise the record to `TOP_SECRET`. -/
def w10_update : RecordUpdate := { record_classification := some "TOP_SECRET" }

/-- C10 witness: the same principal is refused creating a `TOP_SECRET` record
but updates an existing record to `TOP_SECRET`, above their own clearance. -/
theorem classification_ceiling_only_on_create_witness :
    (∃ rec', (update_record w10_user (some w10_record) w10_update).2.1
        = some rec' ∧ rec'.record_classification = "TOP_SECRET")
    ∧ clearance_rank "TOP_SECRET" > clearance_rank w10_user.clearance_level
    ∧ (create_record w10_user
          { title := "t", record_classification := "TOP_SECRET" } "rec-11").1
        = .error (.forbidden "Cannot create records above your clearance level") :=
  ⟨(classification_ceiling_only_on_create w10_user
      { title := "t", record_classification := "TOP_SECRET" } "rec-11"
      w10_record w10_update "TOP_SECRET").2 (by decide) rfl,
   by decide,
   (classification_ceiling_only_on_create w10_user
      { title := "t", record_classification := "TOP_SECRET" } "rec-11"
      w10_record w10_update "TOP_SECRET").1.mpr (by decide)⟩

end RbacDemo
